import Mathlib

/-!
Verification of the unified IoT telemetry gateway
(`vehicle_gateway.py` and `iot_demo.py`).

The Python tool functions are shallowly embedded as pure Lean functions.
Python exceptions that the code can raise (IndexError on out-of-bounds
list access, UnboundLocalError on reading a never-assigned local) are
modelled with `Except PyError`.  Network I/O performed by the protocol
prober is modelled by an explicit environment record (`ProbeEnv`) giving
the outcome of each sub-probe; a raised-and-swallowed exception is the
`none` / `false` outcome.  Python `float` payload values never influence
any verified property, so they are modelled as integers (their repr
`10.0` is reproduced by `pyFloatRepr`).
-/

/-- Errors the embedded Python code can raise. -/
inductive PyError where
  | indexError
  | unboundLocalError
deriving DecidableEq, Repr

/-- Python list subscript `xs[i]` for a non-negative index: the element,
or IndexError when the index is out of bounds. -/
def pyIndex : List Nat → Nat → Except PyError Nat
  | [], _ => .error .indexError
  | x :: _, 0 => .ok x
  | _ :: xs, i + 1 => pyIndex xs i

/-- Python `str(x)` on an `Optional[str]` value: `None` prints as "None". -/
def pyStr (o : Option String) : String :=
  match o with
  | some s => s
  | none => "None"

/-- A CAN bus frame as delivered by `can_bus.recv`: arbitration id plus
payload bytes (`msg.data`). -/
structure Frame where
  arbitration_id : Nat
  data : List Nat
deriving DecidableEq, Repr

/-- The string `json.dumps` produces in `read_sensor_data` for the
composite reading dict with exactly the keys speed, rpm, fuel. -/
def jsonDumpsReading (speed rpm fuel : Nat) : String :=
  "\x7b\"speed\": " ++ toString speed ++ ", \"rpm\": " ++ toString rpm
    ++ ", \"fuel\": " ++ toString fuel ++ "\x7d"

/-- Embedding of `read_sensor_data` (vehicle_gateway.py, lines 57-77) for a
received frame.  The timeout path (`recv` returning no message) is bus I/O
outside the decode dispatch.  Branches mirror the Python if/elif chain;
payload subscripts go through `pyIndex` because Python raises IndexError
when the byte is absent. -/
def read_sensor_data (msg : Frame) : Except PyError String :=
  let can_id := msg.arbitration_id
  if can_id = 0x101 then do
    let b0 ← pyIndex msg.data 0
    pure ("Speed is " ++ toString b0)
  else if can_id = 0x102 then do
    let b0 ← pyIndex msg.data 0
    pure ("RPM is " ++ toString b0)
  else if can_id = 0x103 then do
    let b0 ← pyIndex msg.data 0
    pure ("Fuel level is " ++ toString b0)
  else if can_id = 0x100 then do
    let b0 ← pyIndex msg.data 0
    let b1 ← pyIndex msg.data 1
    let b2 ← pyIndex msg.data 2
    pure (jsonDumpsReading b0 b1 b2)
  else
    pure "Invalid CAN Frame"

/-- Sensor payload of iot_demo.py (`SensorData`): optional named numeric
fields plus an optional timestamp.  Numeric values are modelled as `Int`. -/
structure SensorDataU where
  temperature : Option Int := none
  humidity : Option Int := none
  pressure : Option Int := none
  latitude : Option Int := none
  longitude : Option Int := none
  timestamp : Option String := none
deriving DecidableEq, Repr

/-- Publish request of `iot_demo.py` (`IoTRequest`).  Every field is
modelled as optional because `publish_sensor_data` explicitly tests each
of platform, target and sensor_data against `None`. -/
structure IoTRequestU where
  platform : Option String
  target : Option String
  api_key : Option String
  sensor_data : Option SensorDataU
deriving DecidableEq, Repr

/-- Python `getattr(request, p) is None` for the attribute names that
`publish_sensor_data` inspects. -/
def getattrIsNone (r : IoTRequestU) (p : String) : Bool :=
  if p = "platform" then r.platform.isNone
  else if p = "target" then r.target.isNone
  else if p = "api_key" then r.api_key.isNone
  else if p = "sensor_data" then r.sensor_data.isNone
  else false

/-- The two result dict shapes `publish_sensor_data` in `iot_demo.py` can
return: the needs_elicitation dict with its missing-parameters list, or the
success dict with its message and the sensor-data payload. -/
inductive PublishOutcomeU where
  | needs_elicitation (missing_parameters : List String)
  | success (message : String) (data : Option SensorDataU)
deriving DecidableEq, Repr

/-- Embedding of `publish_sensor_data` (iot_demo.py, lines 155-172): filter
the required names by absence; a non-empty missing list short-circuits to
needs_elicitation, otherwise a mock success message naming the platform. -/
def publish_sensor_data_unified (request : IoTRequestU) : PublishOutcomeU :=
  let required := ["platform", "target", "sensor_data"]
  let missing := required.filter (fun p => getattrIsNone request p)
  if missing ≠ [] then
    .needs_elicitation missing
  else
    .success ("Published to " ++ pyStr request.platform) request.sensor_data

/-- The result dict of `elicit_parameters` in `iot_demo.py`. -/
structure ElicitResult where
  task : String
  missing_parameters : List String
  complete : Bool
deriving DecidableEq, Repr

/-- Embedding of `elicit_parameters` (iot_demo.py, lines 82-99).  `params`
is the key set of the Python params dict (`"x" not in params` is key
absence).  The three appends happen in the source's order. -/
def elicit_parameters (task : String) (params : List String) : ElicitResult :=
  let missing : List String :=
    if task = "publish_sensor_data" then
      (if params.contains "platform" then []
       else ["Which IoT platform should be used?"]) ++
      (if params.contains "target" then []
       else ["Provide the endpoint/broker/channel ID."]) ++
      (if params.contains "sensor_data" then []
       else ["Provide sensor_data (temperature, humidity, etc.)"])
    else []
  { task := task, missing_parameters := missing,
    complete := missing.length == 0 }

/-- Sensor payload of `vehicle_gateway.py` (`SensorData`): optional named
numeric fields plus an optional timestamp, numeric values modelled as
`Int`. -/
structure SensorDataV where
  speed : Option Int := none
  rpm : Option Int := none
  fuel : Option Int := none
  latitude : Option Int := none
  longitude : Option Int := none
  timestamp : Option String := none
deriving DecidableEq, Repr

/-- Publish request of `vehicle_gateway.py` (`IoTRequest`).  In the source
`platform` is a pydantic Literal over the four known platform strings;
it is modelled as a plain string because the dispatcher's final branch
handles exactly the case of a value that bypassed that enumerated check. -/
structure IoTRequestV where
  platform : String
  target : String
  api_key : Option String
  sensor_data : SensorDataV
deriving DecidableEq, Repr

/-- Python repr of a float that carries an integral value, as produced
inside the f-strings of the mock senders. -/
def pyFloatRepr (x : Int) : String := toString x ++ ".0"

/-- One `key: value` item of a Python dict repr, with single-quoted key. -/
def pyDictItem (key value : String) : String :=
  "\x27" ++ key ++ "\x27: " ++ value

/-- Python repr of `request.sensor_data.dict(exclude_none=True)`: the
non-None fields, in declaration order, rendered as a dict literal. -/
def dictExcludeNoneRepr (d : SensorDataV) : String :=
  let items :=
    (match d.speed with | some v => [pyDictItem "speed" (pyFloatRepr v)] | none => []) ++
    (match d.rpm with | some v => [pyDictItem "rpm" (pyFloatRepr v)] | none => []) ++
    (match d.fuel with | some v => [pyDictItem "fuel" (pyFloatRepr v)] | none => []) ++
    (match d.latitude with | some v => [pyDictItem "latitude" (pyFloatRepr v)] | none => []) ++
    (match d.longitude with | some v => [pyDictItem "longitude" (pyFloatRepr v)] | none => []) ++
    (match d.timestamp with | some v => [pyDictItem "timestamp" ("\x27" ++ v ++ "\x27")] | none => [])
  "\x7b" ++ String.intercalate ", " items ++ "\x7d"

/-- Embedding of `send_to_thingsboard` (vehicle_gateway.py, lines 147-148). -/
def send_to_thingsboard (endpoint : String) (token : Option String)
    (data : String) : String :=
  "[Mock] Sent to ThingsBoard at " ++ endpoint ++ " with token="
    ++ pyStr token ++ ": " ++ data

/-- Embedding of `send_to_thingspeak` (vehicle_gateway.py, lines 151-152). -/
def send_to_thingspeak (channel_id : String) (api_key : Option String)
    (data : String) : String :=
  "[Mock] Sent to ThingSpeak channel " ++ channel_id ++ " with key="
    ++ pyStr api_key ++ ": " ++ data

/-- Embedding of `send_to_rest` (vehicle_gateway.py, lines 155-156). -/
def send_to_rest (url : String) (api_key : Option String)
    (data : String) : String :=
  "[Mock] Sent REST POST to " ++ url ++ " api_key="
    ++ pyStr api_key ++ ": " ++ data

/-- Embedding of `send_to_mqtt` (vehicle_gateway.py, lines 159-160). -/
def send_to_mqtt (broker : String) (data : String) : String :=
  "[Mock] Published MQTT to " ++ broker ++ ": " ++ data

/-- Embedding of `publish_sensor_data` (vehicle_gateway.py, lines 113-139):
sequential platform tests, each returning its handler's result, with the
final return for any platform value outside the dispatch table. -/
def publish_sensor_data_gateway (request : IoTRequestV) : String :=
  let data := dictExcludeNoneRepr request.sensor_data
  if request.platform = "thingsboard" then
    send_to_thingsboard request.target request.api_key data
  else if request.platform = "thingspeak" then
    send_to_thingspeak request.target request.api_key data
  else if request.platform = "custom_rest" then
    send_to_rest request.target request.api_key data
  else if request.platform = "custom_mqtt" then
    send_to_mqtt request.target data
  else
    "Unsupported platform"

/-- Embedding of `publish_telemetry` (vehicle_gateway.py, lines 83-99).
The Python local `resp` starts unbound (`none`); the two independent
`if protocol == ...` statements may assign it; `return resp` raises
UnboundLocalError when no branch assigned it. -/
def publish_telemetry (protocol platform telemetry_data : String) :
    Except PyError String :=
  let resp : Option String := none
  let resp : Option String :=
    if protocol = "mqtt" then
      if platform = "thingspeak" then
        some ("Sending " ++ telemetry_data ++ " to thingspeak using mqtt")
      else if platform = "thingsboard" then
        some ("Sending " ++ telemetry_data ++ " to thingsboard using mqtt")
      else
        some ("Sending " ++ telemetry_data ++ " to custom mqtt broker ")
    else resp
  let resp : Option String :=
    if protocol = "http" then
      if platform = "thingspeak" then
        some ("Sending " ++ telemetry_data ++ " to thingspeak using http")
      else if platform = "thingsboard" then
        some ("Sending " ++ telemetry_data ++ " to thingspeak using http")
      else
        some ("Sending " ++ telemetry_data ++ " to thingspeak using http")
    else resp
  match resp with
  | some r => .ok r
  | none => .error .unboundLocalError

/-- Whether `pat` occurs as a contiguous substring of `s` (Python
`pat in s`). -/
def occursIn (pat : List Char) : List Char → Bool
  | [] => pat.isEmpty
  | c :: cs => pat.isPrefixOf (c :: cs) || occursIn pat cs

/-- Whether `sub` occurs as a contiguous substring of `s` (Python
`sub in s` on strings). -/
def strContains (s sub : String) : Bool :=
  occursIn sub.toList s.toList

/-- Fuel-indexed scan of Python `str.replace`: left-to-right,
non-overlapping replacement of every occurrence of `pat`.  Fuel at least
the length of the scanned list makes the scan complete. -/
def replaceAllAux (pat rep : List Char) : Nat → List Char → List Char
  | 0, s => s
  | _ + 1, [] => []
  | fuel + 1, c :: cs =>
    if pat ≠ [] ∧ pat.isPrefixOf (c :: cs) then
      rep ++ replaceAllAux pat rep fuel (List.drop pat.length (c :: cs))
    else
      c :: replaceAllAux pat rep fuel cs

/-- Python `s.replace(pat, rep)` for a non-empty pattern: every
occurrence of `pat` anywhere in `s` is replaced. -/
def replaceAll (pat rep s : List Char) : List Char :=
  replaceAllAux pat rep s.length s

/-- Python `s.split(sep)[0]`: the prefix of `s` before the first
occurrence of the one-character separator (all of `s` when absent). -/
def pySplitHead (sep : Char) (s : List Char) : List Char :=
  s.takeWhile (fun c => c ≠ sep)

/-- The hostname computation of `discover_protocols` (iot_demo.py, line
127): `endpoint.replace("http://", "").replace("https://", "").split("/")[0]`.
Python `replace` is global, so every occurrence of the scheme strings is
removed, wherever it appears. -/
def hostnameOf (endpoint : List Char) : List Char :=
  pySplitHead '/'
    (replaceAll "https://".toList []
      (replaceAll "http://".toList [] endpoint))

/-- Modelled from the spec: the claimed hostname transformation, which
strips only a LEADING `http://` or `https://` scheme and then removes
everything from the first `/` onward.  Stated from the spec's words, to
be compared with `hostnameOf`, which embeds the code. -/
def hostnameSpec (endpoint : List Char) : List Char :=
  let stripped :=
    if "http://".toList.isPrefixOf endpoint then endpoint.drop 7
    else if "https://".toList.isPrefixOf endpoint then endpoint.drop 8
    else endpoint
  pySplitHead '/' stripped

/-- Python `s.rstrip("/")`. -/
def pyRstripSlash (s : String) : String :=
  ⟨(s.toList.reverse.dropWhile (fun c => c = '/')).reverse⟩

/-- The result dict of `discover_protocols`. -/
structure DiscoveryResult where
  endpoint : String
  protocols : List String
deriving DecidableEq, Repr

/-- Outcomes of the network probes issued by `discover_protocols`.
`optionsOk` tells whether `requests.options(endpoint, timeout=3)` returned
without raising; `getStatus url` gives the status code of
`requests.get(url, timeout=3)` or `none` when that call raised;
`portOpen host port` is the value of the nested `port_open` helper, which
already absorbs its own exceptions into `False`.  A timeout is an
exception, hence `none` / `false`. -/
structure ProbeEnv where
  optionsOk : Bool
  getStatus : String → Option Nat
  portOpen : String → Nat → Bool

/-- The fixed description paths probed for OpenAPI/Swagger. -/
def swaggerPaths : List String :=
  ["/swagger.json", "/openapi.json", "/api", "/api/docs"]

/-- A host on which every probe fails: the OPTIONS request and all GETs
raise, every TCP connection attempt fails. -/
def unreachableEnv : ProbeEnv :=
  { optionsOk := false, getStatus := fun _ => none, portOpen := fun _ _ => false }

/-- Embedding of `discover_protocols` (iot_demo.py, lines 105-149): the
HTTP OPTIONS probe, the four description-path GETs (each 200 appending
one more "openapi-rest"), then the three TCP port probes against the
extracted hostname; `list(set(supported))` deduplicates at the end
(Python's set order is arbitrary; `List.dedup` is one such order). -/
def discover_protocols (env : ProbeEnv) (endpoint : String) : DiscoveryResult :=
  let supported : List String := if env.optionsOk then ["http-rest"] else []
  let supported := supported ++
    (swaggerPaths.filter
      (fun path => env.getStatus (pyRstripSlash endpoint ++ path) = some 200)).map
      (fun _ => "openapi-rest")
  let hostname : String := ⟨hostnameOf endpoint.toList⟩
  let supported := supported ++ (if env.portOpen hostname 1883 then ["mqtt"] else [])
  let supported := supported ++ (if env.portOpen hostname 8883 then ["mqtts"] else [])
  let supported := supported ++ (if env.portOpen hostname 5683 then ["coap"] else [])
  { endpoint := endpoint, protocols := supported.dedup }

/-! ### Helper lemmas about the embedded string primitives -/

theorem isPrefixOf_append_self (l t : List Char) : l.isPrefixOf (l ++ t) = true := by
  rw [ List.isPrefixOf_iff_prefix]
  exact ( List.prefix_append l t)

theorem occursIn_nil_pat (s : List Char) : occursIn [] s = true := by
  cases s <;> rfl

theorem occursIn_append_middle (a b c : List Char) : occursIn b (a ++ b ++ c) = true := by
  induction a with
  | nil =>
    cases b with
    | nil => simpa using occursIn_nil_pat c
    | cons x xs =>
      show occursIn (x :: xs) ((x :: xs) ++ c) = true
      rw [List.cons_append, occursIn, Bool.or_eq_true]
      exact Or.inl (isPrefixOf_append_self (x :: xs) c)
  | cons y ys ih =>
    show occursIn b ((y :: ys) ++ b ++ c) = true
    rw [List.cons_append, List.cons_append, occursIn, Bool.or_eq_true]
    exact Or.inr ih

theorem replaceAllAux_of_not_occurs (pat rep : List Char) (fuel : Nat)
    (s : List Char) (h : occursIn pat s = false) :
    replaceAllAux pat rep fuel s = s := by
  induction s generalizing fuel with
  | nil => cases fuel <;> rfl
  | cons c cs ih =>
    rw [occursIn, Bool.or_eq_false_iff] at h
    cases fuel with
    | zero => rfl
    | succ f =>
      rw [replaceAllAux, if_neg, ih f h.2]
      intro hc
      simp [h.1] at hc

theorem replaceAll_of_not_occurs (pat rep s : List Char)
    (h : occursIn pat s = false) : replaceAll pat rep s = s :=
  replaceAllAux_of_not_occurs pat rep s.length s h

theorem replaceAll_leading (pat rep rest : List Char) (hne : pat ≠ [])
    (h : occursIn pat rest = false) :
    replaceAll pat rep (pat ++ rest) = rep ++ rest := by
  obtain ⟨p, ps, rfl⟩ := List.exists_cons_of_ne_nil hne
  show replaceAllAux (p :: ps) rep ((p :: ps ++ rest).length) (p :: ps ++ rest)
    = rep ++ rest
  rw [List.cons_append, List.length_cons, replaceAllAux, if_pos, List.length_cons,
    List.drop_succ_cons, List.drop_left,
    replaceAllAux_of_not_occurs (p :: ps) rep (ps ++ rest).length rest h]
  exact ⟨hne, isPrefixOf_append_self (p :: ps) rest⟩

theorem occursIn_http_of_https (r : List Char) :
    occursIn "http://".toList ("https://".toList ++ r)
      = occursIn "http://".toList r := rfl

theorem strContains_middle (a b c : String) : strContains (a ++ b ++ c) b = true := by
  show occursIn b.data (a ++ b ++ c).data = true
  rw [String.data_append, String.data_append]
  exact occursIn_append_middle a.data b.data c.data

/-! ### Claim theorems -/

/-- Claim C1: `read_sensor_data` dispatches on the arbitration identifier:
0x101, 0x102 and 0x103 report the single named field speed, rpm and fuel
respectively with the value of payload byte 0; 0x100 with at least three
payload bytes reports the composite reading with speed from byte 0, rpm
from byte 1 and fuel from byte 2 and no further fields (in particular
bytes [10, 20, 5] give speed 10, rpm 20, fuel 5); any identifier outside
the set 0x100-0x103 gives the unrecognized-frame result. -/
theorem C1_frame_decode_dispatch (msg : Frame) :
    (msg.arbitration_id = 0x101 → ∀ b0 rest, msg.data = b0 :: rest →
      read_sensor_data msg = .ok ("Speed is " ++ toString b0)) ∧
    (msg.arbitration_id = 0x102 → ∀ b0 rest, msg.data = b0 :: rest →
      read_sensor_data msg = .ok ("RPM is " ++ toString b0)) ∧
    (msg.arbitration_id = 0x103 → ∀ b0 rest, msg.data = b0 :: rest →
      read_sensor_data msg = .ok ("Fuel level is " ++ toString b0)) ∧
    (msg.arbitration_id = 0x100 → ∀ b0 b1 b2 rest, msg.data = b0 :: b1 :: b2 :: rest →
      read_sensor_data msg = .ok (jsonDumpsReading b0 b1 b2)) ∧
    (read_sensor_data ⟨0x100, [10, 20, 5]⟩ = .ok (jsonDumpsReading 10 20 5)) ∧
    (msg.arbitration_id ∉ [0x100, 0x101, 0x102, 0x103] →
      read_sensor_data msg = .ok "Invalid CAN Frame") := by
  obtain ⟨can_id, data⟩ := msg
  refine ⟨?_, ?_, ?_, ?_, by rfl, ?_⟩
  · rintro rfl b0 rest rfl; rfl
  · rintro rfl b0 rest rfl; rfl
  · rintro rfl b0 rest rfl; rfl
  · rintro rfl b0 b1 b2 rest rfl; rfl
  · intro h
    simp only [List.mem_cons, List.mem_singleton, not_or] at h
    obtain ⟨h0, h1, h2, h3, -⟩ := h
    show read_sensor_data ⟨can_id, data⟩ = .ok "Invalid CAN Frame"
    simp only [read_sensor_data]
    rw [if_neg h1, if_neg h2, if_neg h3, if_neg h0]
    rfl

/-- Claim C1 witness: concrete applications of the dispatch theorem with
every hypothesis discharged. -/
theorem C1_frame_decode_dispatch_witness :
    read_sensor_data ⟨0x101, [7, 9]⟩ = .ok ("Speed is " ++ toString 7) ∧
    read_sensor_data ⟨0x100, [10, 20, 5]⟩ = .ok (jsonDumpsReading 10 20 5) ∧
    read_sensor_data ⟨0x2AB, [1]⟩ = .ok "Invalid CAN Frame" :=
  ⟨(C1_frame_decode_dispatch ⟨0x101, [7, 9]⟩).1 rfl 7 [9] rfl,
   (C1_frame_decode_dispatch ⟨0x101, [7, 9]⟩).2.2.2.2.1,
   (C1_frame_decode_dispatch ⟨0x2AB, [1]⟩).2.2.2.2.2 (by decide)⟩

/-- Claim C2: a frame with identifier 0x100 and fewer than three payload
bytes makes `read_sensor_data` fail with Python's IndexError from the
out-of-bounds subscript, not with a structured MalformedFrame result (no
MalformedFrame path exists in the code); no partial reading is returned. -/
theorem C2_short_composite_frame_raises_index_error (msg : Frame)
    (hid : msg.arbitration_id = 0x100) (hlen : msg.data.length < 3) :
    read_sensor_data msg = .error .indexError := by
  obtain ⟨can_id, data⟩ := msg
  simp only at hid hlen
  subst hid
  rcases data with _ | ⟨a, _ | ⟨b, _ | ⟨c, rest⟩⟩⟩
  · rfl
  · rfl
  · rfl
  · simp only [List.length_cons] at hlen
    omega

/-- Claim C2 witness: the failing input, a 0x100 frame carrying only two
payload bytes. -/
theorem C2_short_composite_frame_raises_index_error_witness :
    read_sensor_data ⟨0x100, [10, 20]⟩ = .error .indexError :=
  C2_short_composite_frame_raises_index_error ⟨0x100, [10, 20]⟩ rfl (by decide)

/-- Membership in the missing-parameters list computed by the unified
`publish_sensor_data` is exactly absence of the corresponding required
attribute. -/
theorem mem_required_filter (r : IoTRequestU) (p : String) :
    (p ∈ (["platform", "target", "sensor_data"].filter
        (fun q => getattrIsNone r q))) ↔
      ((p = "platform" ∧ r.platform = none) ∨
       (p = "target" ∧ r.target = none) ∨
       (p = "sensor_data" ∧ r.sensor_data = none)) := by
  rw [List.mem_filter]
  constructor
  · rintro ⟨hp, hq⟩
    simp only [List.mem_cons, List.mem_singleton, List.not_mem_nil, or_false] at hp
    rcases hp with rfl | rfl | rfl
    · exact Or.inl ⟨rfl, by simpa [getattrIsNone] using hq⟩
    · exact Or.inr (Or.inl ⟨rfl, by simpa [getattrIsNone] using hq⟩)
    · exact Or.inr (Or.inr ⟨rfl, by simpa [getattrIsNone] using hq⟩)
  · rintro (⟨rfl, h⟩ | ⟨rfl, h⟩ | ⟨rfl, h⟩) <;> simp [getattrIsNone, h]

/-- Claim C3: a publish request whose target is absent while platform and
sensor payload are present makes the unified `publish_sensor_data` return
the needs_elicitation outcome flagging exactly ["target"]; in general any
needs_elicitation outcome lists precisely the absent attributes among
platform, target and sensor_data. -/
theorem C3_publish_needs_elicitation_exact (r : IoTRequestU) :
    (r.platform.isSome = true → r.target = none → r.sensor_data.isSome = true →
      publish_sensor_data_unified r = .needs_elicitation ["target"]) ∧
    (∀ l, publish_sensor_data_unified r = .needs_elicitation l →
      ∀ p, p ∈ l ↔
        ((p = "platform" ∧ r.platform = none) ∨
         (p = "target" ∧ r.target = none) ∨
         (p = "sensor_data" ∧ r.sensor_data = none))) := by
  constructor
  · intro h1 h2 h3
    obtain ⟨pl, tg, ak, sd⟩ := r
    simp only at h1 h2 h3
    subst h2
    rcases pl with _ | a
    · simp at h1
    rcases sd with _ | s
    · simp at h3
    rfl
  · intro l hl p
    by_cases hm : (["platform", "target", "sensor_data"].filter
        (fun q => getattrIsNone r q)) ≠ []
    · have hx : publish_sensor_data_unified r =
          .needs_elicitation (["platform", "target", "sensor_data"].filter
            (fun q => getattrIsNone r q)) := by
        simp only [publish_sensor_data_unified]
        rw [if_pos hm]
      rw [hx] at hl
      injection hl with hml
      subst hml
      exact mem_required_filter r p
    · have hx : publish_sensor_data_unified r =
          .success ("Published to " ++ pyStr r.platform) r.sensor_data := by
        simp only [publish_sensor_data_unified]
        rw [if_neg hm]
      rw [hx] at hl
      exact PublishOutcomeU.noConfusion hl

/-- Claim C3 witness: a request with platform and payload present but no
target yields needs_elicitation over exactly ["target"]. -/
theorem C3_publish_needs_elicitation_exact_witness :
    publish_sensor_data_unified
        ⟨some "thingsboard", none, none,
         some ⟨none, none, none, none, none, none⟩⟩ =
      .needs_elicitation ["target"] ∧
    ("target" ∈ (["target"] : List String) ↔
      (("target" = "platform" ∧ (some "thingsboard" : Option String) = none) ∨
       ("target" = "target" ∧ (none : Option String) = none) ∨
       ("target" = "sensor_data" ∧
         (some (⟨none, none, none, none, none, none⟩ : SensorDataU) :
           Option SensorDataU) = none))) :=
  ⟨(C3_publish_needs_elicitation_exact _).1 rfl rfl rfl,
   (C3_publish_needs_elicitation_exact
      ⟨some "thingsboard", none, none,
       some ⟨none, none, none, none, none, none⟩⟩).2 ["target"]
     ((C3_publish_needs_elicitation_exact _).1 rfl rfl rfl) "target"⟩

/-- Claim C4 counterexample: with platform "thingsboard", target and
payload all present, the unified `publish_sensor_data` of iot_demo.py
answers success with the message "Published to thingsboard", which does
not contain the target address, refuting the claim that every publish
confirmation contains the target. -/
theorem C4_counterexample_message_lacks_target :
    publish_sensor_data_unified
        ⟨some "thingsboard", some "http://demo.host/api/v1/devtoken", none,
         some ⟨none, none, none, none, none, none⟩⟩ =
      .success "Published to thingsboard"
        (some ⟨none, none, none, none, none, none⟩) ∧
    strContains "Published to thingsboard" "http://demo.host/api/v1/devtoken"
      = false :=
  ⟨rfl, by decide⟩

/-- Claim C4 (amended): the vehicle_gateway dispatcher's thingsboard
confirmation contains both the target address and the platform name
(spelled "ThingsBoard"); the iot_demo unified publisher's success message
is exactly "Published to thingsboard", which names the platform but not
the target. -/
theorem C4_thingsboard_confirmation (r : IoTRequestV) (ru : IoTRequestU) :
    (r.platform = "thingsboard" →
      strContains (publish_sensor_data_gateway r) r.target = true ∧
      strContains (publish_sensor_data_gateway r) "ThingsBoard" = true) ∧
    (ru.platform = some "thingsboard" → ru.target.isSome = true →
      ru.sensor_data.isSome = true →
      publish_sensor_data_unified ru =
        .success "Published to thingsboard" ru.sensor_data ∧
      strContains "Published to thingsboard" "thingsboard" = true) := by
  constructor
  · obtain ⟨pl, tg, ak, sd⟩ := r
    simp only
    rintro rfl
    have hmsg : publish_sensor_data_gateway ⟨"thingsboard", tg, ak, sd⟩ =
        "[Mock] Sent to ThingsBoard at " ++ tg ++ " with token="
          ++ pyStr ak ++ ": " ++ dictExcludeNoneRepr sd := rfl
    rw [hmsg]
    constructor
    · simp only [String.append_assoc]
      rw [← String.append_assoc]
      exact strContains_middle _ _ _
    · rw [show ("[Mock] Sent to ThingsBoard at " : String) =
          "[Mock] Sent to " ++ "ThingsBoard" ++ " at " from rfl]
      simp only [String.append_assoc]
      rw [← String.append_assoc]
      exact strContains_middle _ _ _
  · obtain ⟨pl, tg, ak, sd⟩ := ru
    simp only
    rintro rfl h2 h3
    rcases tg with _ | t
    · simp at h2
    rcases sd with _ | s
    · simp at h3
    exact ⟨rfl, by decide⟩

/-- Claim C4 witness: concrete applications of the amended confirmation
theorem with every hypothesis discharged. -/
theorem C4_thingsboard_confirmation_witness :
    strContains
      (publish_sensor_data_gateway
        ⟨"thingsboard", "http://h/t", some "k",
         ⟨none, none, none, none, none, none⟩⟩) "http://h/t" = true ∧
    strContains
      (publish_sensor_data_gateway
        ⟨"thingsboard", "http://h/t", some "k",
         ⟨none, none, none, none, none, none⟩⟩) "ThingsBoard" = true ∧
    publish_sensor_data_unified
        ⟨some "thingsboard", some "b1", none,
         some ⟨none, none, none, none, none, none⟩⟩ =
      .success "Published to thingsboard"
        (some ⟨none, none, none, none, none, none⟩) :=
  ⟨((C4_thingsboard_confirmation
      ⟨"thingsboard", "http://h/t", some "k",
       ⟨none, none, none, none, none, none⟩⟩
      ⟨some "thingsboard", some "b1", none,
       some ⟨none, none, none, none, none, none⟩⟩).1 rfl).1,
   ((C4_thingsboard_confirmation
      ⟨"thingsboard", "http://h/t", some "k",
       ⟨none, none, none, none, none, none⟩⟩
      ⟨some "thingsboard", some "b1", none,
       some ⟨none, none, none, none, none, none⟩⟩).1 rfl).2,
   ((C4_thingsboard_confirmation
      ⟨"thingsboard", "http://h/t", some "k",
       ⟨none, none, none, none, none, none⟩⟩
      ⟨some "thingsboard", some "b1", none,
       some ⟨none, none, none, none, none, none⟩⟩).2 rfl rfl rfl).1⟩

/-- Claim C5 counterexample: the unified `publish_sensor_data` of
iot_demo.py does not dispatch on the platform value at all: a complete
request naming the unrecognized platform "fakeplatform" yields a success
outcome, not an unsupported-platform outcome. -/
theorem C5_counterexample_unknown_platform_succeeds :
    publish_sensor_data_unified
        ⟨some "fakeplatform", some "mybroker", none,
         some ⟨none, none, none, none, none, none⟩⟩ =
      .success "Published to fakeplatform"
        (some ⟨none, none, none, none, none, none⟩) ∧
    "fakeplatform" ∉
      (["thingsboard", "thingspeak", "custom_rest", "custom_mqtt"] :
        List String) :=
  ⟨rfl, by decide⟩

/-- Claim C5 (amended): the vehicle_gateway dispatcher returns
"Unsupported platform" for every platform value outside the four
recognized ones; the iot_demo unified publisher performs no platform
dispatch and returns a success outcome for every complete request,
whatever the platform string. -/
theorem C5_unsupported_platform_dispatch (r : IoTRequestV) (ru : IoTRequestU) :
    (r.platform ∉
        (["thingsboard", "thingspeak", "custom_rest", "custom_mqtt"] :
          List String) →
      publish_sensor_data_gateway r = "Unsupported platform") ∧
    (ru.platform.isSome = true → ru.target.isSome = true →
      ru.sensor_data.isSome = true →
      publish_sensor_data_unified ru =
        .success ("Published to " ++ pyStr ru.platform) ru.sensor_data) := by
  constructor
  · intro hp
    simp only [List.mem_cons, List.mem_singleton, not_or] at hp
    obtain ⟨h1, h2, h3, h4, -⟩ := hp
    simp only [publish_sensor_data_gateway]
    rw [if_neg h1, if_neg h2, if_neg h3, if_neg h4]
  · obtain ⟨pl, tg, ak, sd⟩ := ru
    simp only
    intro h1 h2 h3
    rcases pl with _ | a
    · simp at h1
    rcases tg with _ | t
    · simp at h2
    rcases sd with _ | s
    · simp at h3
    rfl

/-- Claim C5 witness: concrete applications of the amended dispatch
theorem with every hypothesis discharged. -/
theorem C5_unsupported_platform_dispatch_witness :
    publish_sensor_data_gateway
        ⟨"azure_iot", "http://h/t", none,
         ⟨none, none, none, none, none, none⟩⟩ = "Unsupported platform" ∧
    publish_sensor_data_unified
        ⟨some "fakeplatform2", some "b2", none,
         some ⟨none, none, none, none, none, none⟩⟩ =
      .success ("Published to " ++ pyStr (some "fakeplatform2"))
        (some ⟨none, none, none, none, none, none⟩) :=
  ⟨(C5_unsupported_platform_dispatch
      ⟨"azure_iot", "http://h/t", none, ⟨none, none, none, none, none, none⟩⟩
      ⟨some "fakeplatform2", some "b2", none,
       some ⟨none, none, none, none, none, none⟩⟩).1 (by decide),
   (C5_unsupported_platform_dispatch
      ⟨"azure_iot", "http://h/t", none, ⟨none, none, none, none, none, none⟩⟩
      ⟨some "fakeplatform2", some "b2", none,
       some ⟨none, none, none, none, none, none⟩⟩).2 rfl rfl rfl⟩

/-- Claim C10: when the protocol argument of `publish_telemetry` is
neither "mqtt" nor "http", no branch assigns the local `resp`, and the
final `return resp` raises UnboundLocalError instead of returning a
confirmation string; the function's interface accepts any protocol
string, so this is reachable. -/
theorem C10_publish_telemetry_unbound_local (protocol platform telemetry_data : String)
    (hm : protocol ≠ "mqtt") (hh : protocol ≠ "http") :
    publish_telemetry protocol platform telemetry_data = .error .unboundLocalError := by
  simp only [publish_telemetry]
  rw [if_neg hm, if_neg hh]

/-- Claim C10 witness: the unassigned-local error at the concrete
protocol "coap". -/
theorem C10_publish_telemetry_unbound_local_witness :
    publish_telemetry "coap" "thingsboard" "d1" = .error .unboundLocalError :=
  C10_publish_telemetry_unbound_local "coap" "thingsboard" "d1"
    (by decide) (by decide)

/-- Claim C6: `elicit_parameters` on "publish_sensor_data" with no
provided parameter returns the three clarification prompts for platform,
target and sensor_data in the declared order with complete false; with
all three parameters present, it returns no prompt and complete true; the
prompt list is always an in-order selection from the three declared
prompts (and the embedding is a pure function, so identical inputs give
identical output). -/
theorem C6_elicit_parameters_prompts (params : List String) :
    elicit_parameters "publish_sensor_data" [] =
      ⟨"publish_sensor_data",
       ["Which IoT platform should be used?",
        "Provide the endpoint/broker/channel ID.",
        "Provide sensor_data (temperature, humidity, etc.)"], false⟩ ∧
    ("platform" ∈ params → "target" ∈ params → "sensor_data" ∈ params →
      elicit_parameters "publish_sensor_data" params =
        ⟨"publish_sensor_data", [], true⟩) ∧
    List.Sublist
      (elicit_parameters "publish_sensor_data" params).missing_parameters
      ["Which IoT platform should be used?",
       "Provide the endpoint/broker/channel ID.",
       "Provide sensor_data (temperature, humidity, etc.)"] := by
  refine ⟨rfl, ?_, ?_⟩
  · intro h1 h2 h3
    simp [elicit_parameters, h1, h2, h3]
  · by_cases b1 : "platform" ∈ params <;> by_cases b2 : "target" ∈ params <;>
      by_cases b3 : "sensor_data" ∈ params <;>
      simp [elicit_parameters, b1, b2, b3]

/-- Claim C6 witness: concrete application on a fully provided parameter
set, with the membership hypotheses discharged. -/
theorem C6_elicit_parameters_prompts_witness :
    elicit_parameters "publish_sensor_data"
        ["platform", "target", "sensor_data"] =
      ⟨"publish_sensor_data", [], true⟩ :=
  (C6_elicit_parameters_prompts ["platform", "target", "sensor_data"]).2.1
    (by decide) (by decide) (by decide)

/-- Claim C7: every task name other than "publish_sensor_data" leaves the
missing list empty, so `elicit_parameters` reports complete for every
provided parameter set. -/
theorem C7_unknown_task_complete (task : String) (params : List String)
    (h : task ≠ "publish_sensor_data") :
    elicit_parameters task params = ⟨task, [], true⟩ := by
  simp only [elicit_parameters]
  rw [if_neg h]
  rfl

/-- Claim C7 witness: the permissive default at an unknown task name. -/
theorem C7_unknown_task_complete_witness :
    elicit_parameters "get_samples" ["x"] = ⟨"get_samples", [], true⟩ :=
  C7_unknown_task_complete "get_samples" ["x"] (by decide)

/-- Claim C8: for every probe-outcome environment, `discover_protocols`
returns a result whose protocol list is duplicate-free and drawn from the
five known tags; a failed probe contributes nothing (its tag is absent
from the result when its probe fails); and against a fully unreachable
host the protocol list is empty — every call, being a pure function of
the probe outcomes, returns this same result. -/
theorem C8_discovery_tolerant (env : ProbeEnv) (endpoint : String) :
    (discover_protocols env endpoint).protocols.Nodup ∧
    (∀ t ∈ (discover_protocols env endpoint).protocols,
      t ∈ ["http-rest", "openapi-rest", "mqtt", "mqtts", "coap"]) ∧
    (env.optionsOk = false →
      "http-rest" ∉ (discover_protocols env endpoint).protocols) ∧
    ((∀ path ∈ swaggerPaths,
        env.getStatus (pyRstripSlash endpoint ++ path) ≠ some 200) →
      "openapi-rest" ∉ (discover_protocols env endpoint).protocols) ∧
    (env.portOpen ⟨hostnameOf endpoint.toList⟩ 1883 = false →
      "mqtt" ∉ (discover_protocols env endpoint).protocols) ∧
    (env.portOpen ⟨hostnameOf endpoint.toList⟩ 8883 = false →
      "mqtts" ∉ (discover_protocols env endpoint).protocols) ∧
    (env.portOpen ⟨hostnameOf endpoint.toList⟩ 5683 = false →
      "coap" ∉ (discover_protocols env endpoint).protocols) ∧
    discover_protocols unreachableEnv endpoint = ⟨endpoint, []⟩ := by
  have hmem : ∀ t : String, t ∈ (discover_protocols env endpoint).protocols ↔
      (t ∈ (if env.optionsOk then ["http-rest"] else ([] : List String)) ∨
       t ∈ ((swaggerPaths.filter
          (fun path =>
            env.getStatus (pyRstripSlash endpoint ++ path) = some 200)).map
          (fun _ => "openapi-rest")) ∨
       t ∈ (if env.portOpen ⟨hostnameOf endpoint.toList⟩ 1883 then
              ["mqtt"] else []) ∨
       t ∈ (if env.portOpen ⟨hostnameOf endpoint.toList⟩ 8883 then
              ["mqtts"] else []) ∨
       t ∈ (if env.portOpen ⟨hostnameOf endpoint.toList⟩ 5683 then
              ["coap"] else [])) := by
    intro t
    simp only [discover_protocols]
    rw [List.mem_dedup]
    simp [List.mem_append, or_assoc]
  refine ⟨List.nodup_dedup _, ?_, ?_, ?_, ?_, ?_, ?_, ?_⟩
  · intro t ht
    rw [hmem t] at ht
    rcases ht with h | h | h | h | h
    · cases ho : env.optionsOk <;> rw [ho] at h <;> simp_all
    · obtain ⟨a, -, hfa⟩ := List.mem_map.mp h
      subst hfa
      simp
    · cases hp : env.portOpen ⟨hostnameOf endpoint.toList⟩ 1883 <;>
        rw [hp] at h <;> simp_all
    · cases hp : env.portOpen ⟨hostnameOf endpoint.toList⟩ 8883 <;>
        rw [hp] at h <;> simp_all
    · cases hp : env.portOpen ⟨hostnameOf endpoint.toList⟩ 5683 <;>
        rw [hp] at h <;> simp_all
  · intro hb
    rw [hmem]
    cases h1 : env.portOpen ⟨hostnameOf endpoint.toList⟩ 1883 <;>
      cases h2 : env.portOpen ⟨hostnameOf endpoint.toList⟩ 8883 <;>
      cases h3 : env.portOpen ⟨hostnameOf endpoint.toList⟩ 5683 <;>
      simp_all [List.mem_map]
  · intro hst
    have hf : swaggerPaths.filter
        (fun path =>
          env.getStatus (pyRstripSlash endpoint ++ path) = some 200) = [] := by
      rw [List.filter_eq_nil_iff]
      intro a ha
      simpa using hst a ha
    rw [hmem]
    rw [hf]
    cases ho : env.optionsOk <;>
      cases h1 : env.portOpen ⟨hostnameOf endpoint.toList⟩ 1883 <;>
      cases h2 : env.portOpen ⟨hostnameOf endpoint.toList⟩ 8883 <;>
      cases h3 : env.portOpen ⟨hostnameOf endpoint.toList⟩ 5683 <;>
      simp_all
  · intro hb
    rw [hmem]
    cases ho : env.optionsOk <;>
      cases h2 : env.portOpen ⟨hostnameOf endpoint.toList⟩ 8883 <;>
      cases h3 : env.portOpen ⟨hostnameOf endpoint.toList⟩ 5683 <;>
      simp_all [List.mem_map]
  · intro hb
    rw [hmem]
    cases ho : env.optionsOk <;>
      cases h1 : env.portOpen ⟨hostnameOf endpoint.toList⟩ 1883 <;>
      cases h3 : env.portOpen ⟨hostnameOf endpoint.toList⟩ 5683 <;>
      simp_all [List.mem_map]
  · intro hb
    rw [hmem]
    cases ho : env.optionsOk <;>
      cases h1 : env.portOpen ⟨hostnameOf endpoint.toList⟩ 1883 <;>
      cases h2 : env.portOpen ⟨hostnameOf endpoint.toList⟩ 8883 <;>
      simp_all [List.mem_map]
  · rfl

/-- A pattern that occurs nowhere in a string is in particular not a
prefix of it. -/
theorem isPrefixOf_eq_false_of_not_occurs (pat s : List Char)
    (h : occursIn pat s = false) : pat.isPrefixOf s = false := by
  cases s with
  | nil =>
    cases pat with
    | nil => exact Bool.noConfusion h
    | cons p ps => rfl
  | cons c cs =>
    rw [occursIn, Bool.or_eq_false_iff] at h
    exact h.1

/-- Claim C9 counterexample: Python's `replace` is global, so a
scheme-like substring in the middle of the address is also removed: on
"a.comhttp://b.com" the code computes hostname "a.comb.com", while
stripping only a leading scheme and the path suffix would give
"a.comhttp:". -/
theorem C9_counterexample_global_replace :
    hostnameOf "a.comhttp://b.com".toList
        ≠ hostnameSpec "a.comhttp://b.com".toList ∧
    hostnameOf "a.comhttp://b.com".toList = "a.comb.com".toList ∧
    hostnameSpec "a.comhttp://b.com".toList = "a.comhttp:".toList := by
  decide

/-- Claim C9 (amended): the code removes every occurrence of "http://"
and then of "https://" anywhere in the address before truncating at the
first "/"; when scheme-like substrings occur at most as the leading
prefix — the address is a scheme followed by a remainder free of them,
or is itself free of them — this agrees with stripping the leading scheme
and the path suffix, as the spec describes. -/
theorem C9_hostname_strips_leading_scheme (e r : List Char)
    (h1 : occursIn "http://".toList r = false)
    (h2 : occursIn "https://".toList r = false)
    (hcase : e = "http://".toList ++ r ∨ e = "https://".toList ++ r ∨ e = r) :
    hostnameOf e = hostnameSpec e ∧ hostnameOf e = pySplitHead '/' r := by
  have hx : "http://".toList ≠ [] := by decide
  have hy : "https://".toList ≠ [] := by decide
  rcases hcase with rfl | rfl | rfl
  · have e1 : replaceAll "http://".toList [] ("http://".toList ++ r) = r := by
      simpa using replaceAll_leading "http://".toList [] r hx h1
    have hcode : hostnameOf ("http://".toList ++ r) = pySplitHead '/' r := by
      simp only [hostnameOf]
      rw [e1, replaceAll_of_not_occurs _ _ _ h2]
    have hspec : hostnameSpec ("http://".toList ++ r) = pySplitHead '/' r := by
      simp only [hostnameSpec]
      rw [if_pos (isPrefixOf_append_self _ _),
        show (7 : Nat) = ("http://".toList).length from rfl, List.drop_left]
    exact ⟨hcode.trans hspec.symm, hcode⟩
  · have e0 : occursIn "http://".toList ("https://".toList ++ r) = false := by
      rw [occursIn_http_of_https]
      exact h1
    have e1 : replaceAll "http://".toList [] ("https://".toList ++ r)
        = "https://".toList ++ r := replaceAll_of_not_occurs _ _ _ e0
    have e2 : replaceAll "https://".toList [] ("https://".toList ++ r) = r := by
      simpa using replaceAll_leading "https://".toList [] r hy h2
    have hcode : hostnameOf ("https://".toList ++ r) = pySplitHead '/' r := by
      simp only [hostnameOf]
      rw [e1, e2]
    have hspec : hostnameSpec ("https://".toList ++ r) = pySplitHead '/' r := by
      simp only [hostnameSpec]
      have hnp : "http://".toList.isPrefixOf ("https://".toList ++ r) = false := rfl
      rw [if_neg (by simp [hnp]), if_pos (isPrefixOf_append_self _ _),
        show (8 : Nat) = ("https://".toList).length from rfl, List.drop_left]
    exact ⟨hcode.trans hspec.symm, hcode⟩
  · have hcode : hostnameOf e = pySplitHead '/' e := by
      simp only [hostnameOf]
      rw [replaceAll_of_not_occurs _ _ _ h1, replaceAll_of_not_occurs _ _ _ h2]
    have hp1 : "http://".toList.isPrefixOf e = false :=
      isPrefixOf_eq_false_of_not_occurs _ _ h1
    have hp2 : "https://".toList.isPrefixOf e = false :=
      isPrefixOf_eq_false_of_not_occurs _ _ h2
    have hspec : hostnameSpec e = pySplitHead '/' e := by
      simp only [hostnameSpec]
      rw [if_neg (by rw [hp1]; exact Bool.false_ne_true),
        if_neg (by rw [hp2]; exact Bool.false_ne_true)]
    exact ⟨hcode.trans hspec.symm, hcode⟩

/-- Claim C9 witness: on a well-formed address carrying one leading
scheme, the code's hostname agrees with the spec transformation. -/
theorem C9_hostname_strips_leading_scheme_witness :
    hostnameOf "http://example.com/path".toList
      = hostnameSpec "http://example.com/path".toList ∧
    hostnameOf "http://example.com/path".toList
      = pySplitHead '/' "example.com/path".toList :=
  C9_hostname_strips_leading_scheme "http://example.com/path".toList
    "example.com/path".toList (by decide) (by decide) (Or.inl (by decide))

/-- Claim C8 witness: discovery against a fully unreachable host, with
the failed-probe hypotheses discharged. -/
theorem C8_discovery_tolerant_witness :
    "http-rest" ∉ (discover_protocols unreachableEnv "http://demo.dev").protocols ∧
    "openapi-rest" ∉ (discover_protocols unreachableEnv "http://demo.dev").protocols ∧
    "mqtt" ∉ (discover_protocols unreachableEnv "http://demo.dev").protocols ∧
    discover_protocols unreachableEnv "http://demo.dev" = ⟨"http://demo.dev", []⟩ :=
  ⟨(C8_discovery_tolerant unreachableEnv "http://demo.dev").2.2.1 rfl,
   (C8_discovery_tolerant unreachableEnv "http://demo.dev").2.2.2.1
     (fun path _ => by simp [unreachableEnv]),
   (C8_discovery_tolerant unreachableEnv "http://demo.dev").2.2.2.2.1 rfl,
   (C8_discovery_tolerant unreachableEnv "http://demo.dev").2.2.2.2.2.2.2⟩
